import Mathlib

/-!
Shallow embedding of the notification-service dispatch pipeline.

The definitions below are translated from the TypeScript sources:
* `src/src/transaction-tracking/transaction-tracking.service.ts`
  (`createTransaction`, `updateStatus`, `logError`, `determineErrorType`,
  `getTransaction`)
* `src/src/notification/notification.module.ts`
  (`PriorityNotificationProcessor.process`, `isRetryableError`)
* `src/src/queue/queue.service.ts` (`addNotificationToQueue`)
* `src/src/admin/admin.controller.ts` (`NotificationController.sendNotification`)
* `src/src/user-preferences/user-preferences.service.ts`
  (`getPreferences`, `updatePreferences`, `getPreferredChannels`,
  `getChannelPriority`, `createDefaultPreferences`)
* `src/src/notification/providers/push-provider.service.ts` (`send`)

The Prisma database is modelled as in-memory lists (one row per record);
`prisma.….update` on an id that matches no row is modelled as leaving the
list unchanged.  JavaScript truthiness on optional strings / numbers is
modelled explicitly (`optStrTruthy`, `jsOrNat`, `jsOr`).  Timestamps are
`Nat` instants threaded through as a `now` parameter.
-/

namespace NotificationService

/-- Modelled from the spec: `src/common/enums/notification.enums.ts` is not
under `src/`; the channel enum values `EMAIL | SMS | WHATSAPP | PUSH` are as
listed in the spec data model and the DTO doc comments. -/
inductive NotificationChannel
  | EMAIL
  | SMS
  | WHATSAPP
  | PUSH
  deriving DecidableEq, Repr

/-- Modelled from the spec: statuses of the transaction state machine
(`src/common/enums/notification.enums.ts` is not under `src/`). -/
inductive NotificationStatus
  | PENDING
  | QUEUED
  | PROCESSING
  | SENT
  | FAILED
  | RETRY
  | DEAD_LETTER
  deriving DecidableEq, Repr

/-- Modelled from the spec: the error taxonomy surfaced in
`ErrorLog.errorType` (`src/common/enums/notification.enums.ts` is not under
`src/`). -/
inductive ErrorType
  | NETWORK_ERROR
  | RATE_LIMIT
  | AUTHENTICATION_ERROR
  | INVALID_DATA
  | PROVIDER_ERROR
  | RETRYABLE
  | NON_RETRYABLE
  deriving DecidableEq, Repr

/-- Priority constants (1=LOW, 2=MEDIUM, 3=HIGH, 4=URGENT), documented in the
DTO comments and the spec glossary. -/
def LOW : Nat := 1

def MEDIUM : Nat := 2

def HIGH : Nat := 3

def URGENT : Nat := 4

/-- Does `sub` occur as a prefix of `m`? -/
def charsLeadWith : List Char → List Char → Bool
  | _, [] => true
  | [], _ :: _ => false
  | c :: cs, d :: ds => c == d && charsLeadWith cs ds

/-- Does `sub` occur as a contiguous sublist of `m`? -/
def charsContain (sub : List Char) : List Char → Bool
  | [] => charsLeadWith [] sub
  | c :: cs => charsLeadWith (c :: cs) sub || charsContain sub cs

/-- JavaScript `String.prototype.includes`. -/
def strContains (m sub : String) : Bool :=
  charsContain sub.data m.data

/-- JavaScript truthiness of an optional string (`undefined` and `""` are
falsy). -/
def optStrTruthy : Option String → Bool
  | some s => s ≠ ""
  | none => false

/-- JavaScript `x || d` for an optional number `x`: `some 0` and `none` both
fall through to the default. -/
def jsOrNat (o : Option Nat) (d : Nat) : Nat :=
  match o with
  | some n => if n = 0 then d else n
  | none => d

/-- JavaScript `x || d` for a number `x` (`0` is falsy). -/
def jsOr (n d : Nat) : Nat :=
  if n = 0 then d else n

/-- The duck-typed error object the worker and the tracking service inspect
(`error.code`, `error.statusCode`, `error.message`, `error.stack`,
`error.provider`). -/
structure ErrorRecord where
  code : Option String
  statusCode : Option Nat
  message : Option String
  stack : Option String
  provider : Option String
  deriving DecidableEq, Repr

/-- JavaScript `error.message?.includes(sub)` (optional chaining: `none`
yields false). -/
def msgIncludes (e : ErrorRecord) (sub : String) : Bool :=
  match e.message with
  | some m => strContains m sub
  | none => false

/-- `PriorityNotificationProcessor.isRetryableError`
(`src/src/notification/notification.module.ts`, lines 142-166). -/
def isRetryableError (e : ErrorRecord) : Bool :=
  if e.code == some "ETIMEDOUT" || e.code == some "ECONNREFUSED" ||
      e.code == some "ENOTFOUND" || msgIncludes e "timeout" ||
      msgIncludes e "rate limit" || e.statusCode == some 429 ||
      e.statusCode == some 503 then
    true
  else if e.statusCode == some 401 || e.statusCode == some 403 ||
      e.statusCode == some 400 || msgIncludes e "invalid" ||
      msgIncludes e "not found" then
    false
  else
    true

/-- `TransactionTrackingService.determineErrorType`
(`src/src/transaction-tracking/transaction-tracking.service.ts`,
lines 266-283). -/
def determineErrorType (e : ErrorRecord) (retryable : Bool) : ErrorType :=
  if e.code == some "ETIMEDOUT" || e.code == some "ECONNREFUSED" then
    .NETWORK_ERROR
  else if e.statusCode == some 429 then
    .RATE_LIMIT
  else if e.statusCode == some 401 || e.statusCode == some 403 then
    .AUTHENTICATION_ERROR
  else if e.statusCode == some 400 || msgIncludes e "invalid" then
    .INVALID_DATA
  else if optStrTruthy e.provider then
    .PROVIDER_ERROR
  else if retryable then
    .RETRYABLE
  else
    .NON_RETRYABLE

example :
    determineErrorType ⟨none, some 503, none, none, none⟩ true = .RETRYABLE := by
  decide

example :
    isRetryableError ⟨none, some 503, none, none, none⟩ = true := by
  decide

example :
    isRetryableError ⟨none, some 502, some "invalid gateway", none, none⟩ = false := by
  decide

/-- The object a provider `send` resolves with (the worker stores it verbatim
under `metadata.providerResponse`).  The fields are the union of those built
by the providers under `src/src/notification/providers/`. -/
structure ProviderResult where
  success : Bool
  provider : String
  deviceToken : Option String := none
  title : Option String := none
  body : Option String := none
  timestamp : Nat := 0
  deriving DecidableEq, Repr

/-- `PushProviderService.send`
(`src/src/notification/providers/push-provider.service.ts`, lines 7-42).
The `try` block only constructs an object literal, so the `catch` branch is
unreachable and the embedding is a total function.  `title` defaulted to the literal `Notification`
is JavaScript truthiness on the optional title. -/
def pushProviderSend (recipient content : String) (title : Option String)
    (now : Nat) : ProviderResult :=
  { success := true
    provider := "web-push"
    deviceToken := some recipient
    title := some (match title with
      | some t => if t = "" then "Notification" else t
      | none => "Notification")
    body := some content
    timestamp := now }

/-- A row of the `ErrorLog` table, as written by
`TransactionTrackingService.logError`. -/
structure ErrorLog where
  transactionId : String
  errorType : ErrorType
  errorMessage : String
  errorStack : Option String
  errorCode : Option String
  retryable : Bool
  deriving DecidableEq, Repr

/-- A row of the `NotificationTransaction` table.  `metadata.providerResponse`
is modelled as the dedicated field `providerResponse`; `retryCount` defaults
to `0` — modelled from the spec, since `prisma/schema.prisma` (which holds the
column default) is not under `src/` and `createTransaction` does not set it. -/
structure Transaction where
  transactionId : String
  userId : String
  notificationType : String
  channel : Option NotificationChannel
  status : NotificationStatus
  content : String
  subject : Option String
  recipient : String
  priority : Nat
  retryCount : Nat
  maxRetries : Nat
  failureReason : Option String
  providerResponse : Option ProviderResult
  createdAt : Nat
  updatedAt : Nat
  sentAt : Option Nat
  failedAt : Option Nat
  deriving DecidableEq, Repr

/-- The persistent store: the `NotificationTransaction` and `ErrorLog`
tables. -/
structure Store where
  transactions : List Transaction
  errorLogs : List ErrorLog
  deriving DecidableEq, Repr

/-- `TransactionTrackingService.getTransaction`: `findUnique` by
`transactionId`. -/
def getTransaction (st : Store) (tid : String) : Option Transaction :=
  st.transactions.find? (fun t => t.transactionId == tid)

/-- The row-level effect of `TransactionTrackingService.updateStatus`
(`src/src/transaction-tracking/transaction-tracking.service.ts`,
lines 86-129): sets `status` and `updatedAt`; `SENT` also sets `sentAt` and
clears `failureReason`; `FAILED`/`DEAD_LETTER` set `failedAt` and overwrite
`failureReason` only when the argument is truthy; `RETRY` increments
`retryCount`; a provider response is merged into the metadata. -/
def applyStatus (now : Nat) (status : NotificationStatus)
    (failureReason : Option String) (providerResponse : Option ProviderResult)
    (t : Transaction) : Transaction :=
  let t1 := { t with status := status, updatedAt := now }
  let t2 :=
    match status with
    | .SENT => { t1 with sentAt := some now, failureReason := none }
    | .FAILED =>
        { t1 with failedAt := some now,
                  failureReason := if optStrTruthy failureReason then
                    failureReason else t1.failureReason }
    | .DEAD_LETTER =>
        { t1 with failedAt := some now,
                  failureReason := if optStrTruthy failureReason then
                    failureReason else t1.failureReason }
    | .RETRY => { t1 with retryCount := t1.retryCount + 1 }
    | _ => t1
  match providerResponse with
  | some r => { t2 with providerResponse := some r }
  | none => t2

/-- `TransactionTrackingService.updateStatus` on the store: `prisma.update`
on the unique `transactionId` (modelled as rewriting every matching row; an
id that matches no row leaves the table unchanged). -/
def updateStatus (st : Store) (tid : String) (status : NotificationStatus)
    (failureReason : Option String) (providerResponse : Option ProviderResult)
    (now : Nat) : Store :=
  { st with
      transactions := st.transactions.map (fun t =>
        if t.transactionId == tid then
          applyStatus now status failureReason providerResponse t
        else t) }

/-- The `ErrorLog` row built by `TransactionTrackingService.logError`
(lines 144-162): `errorMessage` falls back to `Unknown error` and `errorCode` to the
stringified status code, under JavaScript truthiness. -/
def mkErrorLog (tid : String) (e : ErrorRecord) (retryable : Bool) : ErrorLog :=
  { transactionId := tid
    errorType := determineErrorType e retryable
    errorMessage :=
      match e.message with
      | some m => if m = "" then "Unknown error" else m
      | none => "Unknown error"
    errorStack := e.stack
    errorCode :=
      if optStrTruthy e.code then e.code
      else (e.statusCode.map (fun n => toString n))
    retryable := retryable }

/-- `TransactionTrackingService.logError`: appends an `ErrorLog` row. -/
def logError (st : Store) (tid : String) (e : ErrorRecord)
    (retryable : Bool) : Store :=
  { st with errorLogs := st.errorLogs ++ [mkErrorLog tid e retryable] }

/-- The queue payload consumed by the worker
(`NotificationJobData` in `src/src/notification/notification.module.ts`). -/
structure JobData where
  transactionId : String
  userId : String
  notificationType : String
  channel : NotificationChannel
  content : String
  subject : Option String
  recipient : String
  priority : Option Nat
  deriving DecidableEq, Repr

/-- `PriorityNotificationProcessor.process`
(`src/src/notification/notification.module.ts`, lines 65-130), with the
provider call abstracted as its `outcome` (the providers are external
services).  The happy path transitions `PROCESSING` then `SENT` with the
provider response; the failure path logs the error with
`isRetryableError`, reads the transaction back, and transitions to
`DEAD_LETTER` when `retryCount >= maxRetries` and to `RETRY` otherwise
(also when the read-back finds no row), passing `error.message` as the
failure reason in both cases. -/
def process (st : Store) (job : JobData)
    (outcome : Except ErrorRecord ProviderResult) (now : Nat) : Store :=
  let st1 := updateStatus st job.transactionId .PROCESSING none none now
  match outcome with
  | .ok result =>
      updateStatus st1 job.transactionId .SENT none (some result) now
  | .error e =>
      let st2 := logError st1 job.transactionId e (isRetryableError e)
      match getTransaction st2 job.transactionId with
      | some t =>
          if t.maxRetries ≤ t.retryCount then
            updateStatus st2 job.transactionId .DEAD_LETTER e.message none now
          else
            updateStatus st2 job.transactionId .RETRY e.message none now
      | none => updateStatus st2 job.transactionId .RETRY e.message none now

/-- A row of the `NotificationPreferences` table. -/
structure Preferences where
  userId : String
  emailEnabled : Bool
  smsEnabled : Bool
  whatsappEnabled : Bool
  pushEnabled : Bool
  emailPriority : Nat
  smsPriority : Nat
  whatsappPriority : Nat
  pushPriority : Nat
  deriving DecidableEq, Repr

/-- `UpdatePreferencesDto` (`src/src/common/dto/update-preferences.dto.ts`):
every field optional; absent fields are `undefined` and are ignored by the
Prisma write. -/
structure UpdatePreferencesDto where
  emailEnabled : Option Bool := none
  smsEnabled : Option Bool := none
  whatsappEnabled : Option Bool := none
  pushEnabled : Option Bool := none
  emailPriority : Option Nat := none
  smsPriority : Option Nat := none
  whatsappPriority : Option Nat := none
  pushPriority : Option Nat := none
  deriving DecidableEq, Repr

/-- Overwrite a row with the fields a partial update defines
(the effect of passing the DTO as Prisma `data`: `undefined` fields are
left alone). -/
def applyDto (p : Preferences) (dto : UpdatePreferencesDto) : Preferences :=
  { p with
      emailEnabled := dto.emailEnabled.getD p.emailEnabled
      smsEnabled := dto.smsEnabled.getD p.smsEnabled
      whatsappEnabled := dto.whatsappEnabled.getD p.whatsappEnabled
      pushEnabled := dto.pushEnabled.getD p.pushEnabled
      emailPriority := dto.emailPriority.getD p.emailPriority
      smsPriority := dto.smsPriority.getD p.smsPriority
      whatsappPriority := dto.whatsappPriority.getD p.whatsappPriority
      pushPriority := dto.pushPriority.getD p.pushPriority }

/-- `UserPreferencesService.createDefaultPreferences`
(`src/src/user-preferences/user-preferences.service.ts`, lines 103-117). -/
def createDefaultPreferences (userId : String) : Preferences :=
  { userId := userId
    emailEnabled := true
    smsEnabled := false
    whatsappEnabled := false
    pushEnabled := false
    emailPriority := 1
    smsPriority := 2
    whatsappPriority := 3
    pushPriority := 4 }

/-- Modelled from the spec: `prisma/schema.prisma` is not under `src/`; per
the spec's data model the schema's column defaults for
`NotificationPreferences` are EMAIL enabled (others disabled) and priorities
EMAIL=1, SMS=2, WHATSAPP=3, PUSH=4.  Used by the `create` branch of
`updatePreferences`, whose `data: { userId, ...dto }` leaves unsupplied
columns to the schema defaults. -/
def schemaDefaultPreferences (userId : String) : Preferences :=
  createDefaultPreferences userId

/-- The `NotificationPreferences` table (one row per user). -/
def findPreferences (ps : List Preferences) (userId : String) :
    Option Preferences :=
  ps.find? (fun p => p.userId == userId)

/-- `UserPreferencesService.getPreferences`: returns the stored row, or
creates (and persists) the default row when none exists.  Returns the row
together with the table after the call. -/
def getPreferences (ps : List Preferences) (userId : String) :
    Preferences × List Preferences :=
  match findPreferences ps userId with
  | some p => (p, ps)
  | none =>
      let d := createDefaultPreferences userId
      (d, ps ++ [d])

/-- `UserPreferencesService.updatePreferences`
(`src/src/user-preferences/user-preferences.service.ts`, lines 46-64):
`create { userId, ...dto }` when no row exists (unsupplied columns get the
schema defaults), otherwise `update` with the DTO (only supplied fields
overwrite).  Returns the resulting full row and the table. -/
def updatePreferences (ps : List Preferences) (userId : String)
    (dto : UpdatePreferencesDto) : Preferences × List Preferences :=
  match findPreferences ps userId with
  | none =>
      let r := applyDto (schemaDefaultPreferences userId) dto
      (r, ps ++ [r])
  | some existing =>
      let r := applyDto existing dto
      (r, ps.map (fun p => if p.userId == userId then r else p))

/-- `UserPreferencesService.getPreferredChannels`: the enabled channels in
the stable order EMAIL, SMS, WHATSAPP, PUSH (creating the default row first
when none exists). -/
def getPreferredChannels (ps : List Preferences) (userId : String) :
    List NotificationChannel × List Preferences :=
  let p := (getPreferences ps userId).1
  let ps1 := (getPreferences ps userId).2
  ((if p.emailEnabled then [NotificationChannel.EMAIL] else []) ++
   (if p.smsEnabled then [NotificationChannel.SMS] else []) ++
   (if p.whatsappEnabled then [NotificationChannel.WHATSAPP] else []) ++
   (if p.pushEnabled then [NotificationChannel.PUSH] else []), ps1)

/-- `UserPreferencesService.getChannelPriority`: the stored per-channel
priority (the TS `switch` covers every enum constructor). -/
def getChannelPriority (ps : List Preferences) (userId : String)
    (channel : NotificationChannel) : Nat × List Preferences :=
  let p := (getPreferences ps userId).1
  let ps1 := (getPreferences ps userId).2
  (match channel with
   | .EMAIL => p.emailPriority
   | .SMS => p.smsPriority
   | .WHATSAPP => p.whatsappPriority
   | .PUSH => p.pushPriority, ps1)

/-- The spec's right-biased merge `p1 ⊕ p2` of two partial updates:
keys defined in `p2` overwrite, keys only defined in `p1` survive.
(Stated from the spec's words, for comparison with the source-derived
`updatePreferences`.) -/
def mergeDto (p1 p2 : UpdatePreferencesDto) : UpdatePreferencesDto :=
  { emailEnabled := p2.emailEnabled.orElse (fun _ => p1.emailEnabled)
    smsEnabled := p2.smsEnabled.orElse (fun _ => p1.smsEnabled)
    whatsappEnabled := p2.whatsappEnabled.orElse (fun _ => p1.whatsappEnabled)
    pushEnabled := p2.pushEnabled.orElse (fun _ => p1.pushEnabled)
    emailPriority := p2.emailPriority.orElse (fun _ => p1.emailPriority)
    smsPriority := p2.smsPriority.orElse (fun _ => p1.smsPriority)
    whatsappPriority := p2.whatsappPriority.orElse (fun _ => p1.whatsappPriority)
    pushPriority := p2.pushPriority.orElse (fun _ => p1.pushPriority) }

/-- `CreateNotificationDto` (`src/src/common/dto/create-notification.dto.ts`):
`channel`, `subject`, `priority`, `metadata` are optional.  `metadata` is
modelled as an opaque key/value list. -/
structure CreateNotificationDto where
  userId : String
  notificationType : String
  channel : Option NotificationChannel
  content : String
  subject : Option String
  recipient : String
  priority : Option Nat
  metadata : List (String × String) := []
  deriving DecidableEq, Repr

/-- `TransactionTrackingService.createTransaction`
(`src/src/transaction-tracking/transaction-tracking.service.ts`,
lines 49-70): the row is written from the raw DTO with `status = PENDING`,
`priority = notification.priority || 1`, and
`maxRetries` parsed from `MAX_RETRY_ATTEMPTS` with default `3` (the configured value is
the `cfgMaxRetries` parameter; `retryCount` is the schema default `0`). -/
def createTransaction (cfgMaxRetries : Nat) (now : Nat) (tid : String)
    (dto : CreateNotificationDto) : Transaction :=
  { transactionId := tid
    userId := dto.userId
    notificationType := dto.notificationType
    channel := dto.channel
    status := .PENDING
    content := dto.content
    subject := dto.subject
    recipient := dto.recipient
    priority := jsOrNat dto.priority 1
    retryCount := 0
    maxRetries := cfgMaxRetries
    failureReason := none
    providerResponse := none
    createdAt := now
    updatedAt := now
    sentAt := none
    failedAt := none }

/-- A job as placed on a BullMQ queue by `QueueService`. -/
structure EnqueuedJob where
  jobName : String
  data : CreateNotificationDto
  transactionId : String
  jobPriority : Nat
  jobId : String
  deriving DecidableEq, Repr

/-- The three named queues of the broker. -/
structure QueueState where
  regular : List EnqueuedJob
  priorityQueue : List EnqueuedJob
  deadLetter : List EnqueuedJob
  deriving DecidableEq, Repr

/-- `QueueService.addNotificationToQueue`
(`src/src/queue/queue.service.ts`, lines 15-35):
`priority = notification.priority || LOW`; jobs with `priority >= HIGH` go to
the priority queue, the rest to the regular queue, both with
`jobId = transactionId`. -/
def addNotificationToQueue (qs : QueueState)
    (notification : CreateNotificationDto) (tid : String) : QueueState :=
  let p := jsOrNat notification.priority LOW
  let job : EnqueuedJob :=
    { jobName := "send-notification"
      data := notification
      transactionId := tid
      jobPriority := p
      jobId := tid }
  if HIGH ≤ p then
    { qs with priorityQueue := qs.priorityQueue ++ [job] }
  else
    { qs with regular := qs.regular ++ [job] }

/-- The channel resolution of `NotificationController.sendNotification`
(`src/src/admin/admin.controller.ts`, lines 268-271):
`dto.channel || preferredChannels[0] || EMAIL` (also returns the preference
table, which the lazy default creation may have extended). -/
def resolveChannel (prefs : List Preferences) (dto : CreateNotificationDto) :
    NotificationChannel × List Preferences :=
  let chans := (getPreferredChannels prefs dto.userId).1
  let prefs1 := (getPreferredChannels prefs dto.userId).2
  (match dto.channel with
   | some c => c
   | none => chans.headD .EMAIL, prefs1)

/-- The priority resolution of `NotificationController.sendNotification`
(lines 274-277): `dto.priority || channelPriority || MEDIUM` under
JavaScript truthiness. -/
def resolvePriority (prefs : List Preferences) (dto : CreateNotificationDto)
    (channel : NotificationChannel) : Nat × List Preferences :=
  let cp := (getChannelPriority prefs dto.userId channel).1
  let prefs1 := (getChannelPriority prefs dto.userId channel).2
  (jsOrNat dto.priority (jsOr cp MEDIUM), prefs1)

/-- The whole mutable state the dispatcher touches. -/
structure SysState where
  store : Store
  prefs : List Preferences
  queues : QueueState
  deriving DecidableEq, Repr

/-- The empty system: no transactions, no error logs, no preference rows,
empty queues. -/
def initialState : SysState :=
  { store := { transactions := [], errorLogs := [] }
    prefs := []
    queues := { regular := [], priorityQueue := [], deadLetter := [] } }

/-- The 202 response body of `POST /notifications/send`. -/
structure DispatchResponse where
  success : Bool
  transactionId : String
  channel : NotificationChannel
  priority : Nat
  deriving DecidableEq, Repr

/-- `NotificationController.sendNotification`
(`src/src/admin/admin.controller.ts`, lines 263-296): creates the
transaction row from the raw DTO, resolves channel and priority from the
preferences, then enqueues `{...dto, channel, priority}` with the
transaction id.  `enqueueFails` models the broker call throwing: the
exception propagates with the row already written and no further store
write. -/
def sendNotification (cfgMaxRetries now : Nat) (tid : String)
    (dto : CreateNotificationDto) (enqueueFails : Bool) (sys : SysState) :
    Except String DispatchResponse × SysState :=
  let store1 :=
    { sys.store with
        transactions := sys.store.transactions ++
          [createTransaction cfgMaxRetries now tid dto] }
  let channel := (resolveChannel sys.prefs dto).1
  let prefs1 := (resolveChannel sys.prefs dto).2
  let priority := (resolvePriority prefs1 dto channel).1
  let prefs2 := (resolvePriority prefs1 dto channel).2
  if enqueueFails then
    (.error "enqueue failed", { sys with store := store1, prefs := prefs2 })
  else
    let dto' := { dto with channel := some channel, priority := some priority }
    let qs1 := addNotificationToQueue sys.queues dto' tid
    (.ok { success := true
           transactionId := tid
           channel := channel
           priority := priority },
     { store := store1, prefs := prefs2, queues := qs1 })

/-! ### List lemmas for the row-update pattern `map (fun a => if p a then … else a)` -/

theorem list_find?_map_if {α : Type} (p : α → Bool) (g : α → α)
    (hg : ∀ a, p (g a) = p a) (l : List α) :
    (l.map fun a => if p a then g a else a).find? p = (l.find? p).map g := by
  induction l with
  | nil => rfl
  | cons a l ih =>
    by_cases h : p a
    · simp [List.find?_cons, h, hg]
    · simp [List.find?_cons, h, ih]

theorem list_find?_map_const {α : Type} (p : α → Bool) (r : α)
    (hr : p r = true) (l : List α) :
    (l.map fun a => if p a then r else a).find? p =
      (l.find? p).map (fun _ => r) := by
  induction l with
  | nil => rfl
  | cons a l ih =>
    by_cases h : p a
    · simp [List.find?_cons, h, hr]
    · simp [List.find?_cons, h, ih]

theorem list_map_if_of_none {α : Type} (p : α → Bool) (f : α → α)
    (l : List α) (h : l.find? p = none) :
    (l.map fun a => if p a then f a else a) = l := by
  induction l with
  | nil => rfl
  | cons a l ih =>
    rw [List.find?_cons] at h
    by_cases hp : p a
    · simp [hp] at h
    · simp only [List.map_cons, if_neg hp]
      rw [ih (by simpa [hp] using h)]

theorem list_find?_append_none {α : Type} (p : α → Bool) (l₁ l₂ : List α)
    (h : l₁.find? p = none) : (l₁ ++ l₂).find? p = l₂.find? p := by
  induction l₁ with
  | nil => rfl
  | cons a l ih =>
    rw [List.find?_cons] at h
    by_cases hp : p a
    · simp [hp] at h
    · simp only [List.cons_append, List.find?_cons, if_neg hp]
      simp only [hp, cond_false]
      exact ih (by simpa [hp] using h)

theorem list_map_if_map_if {α : Type} (p : α → Bool) (r₁ r₂ : α)
    (h : p r₁ = true) (l : List α) :
    ((l.map fun a => if p a then r₁ else a).map
        fun a => if p a then r₂ else a) =
      l.map fun a => if p a then r₂ else a := by
  rw [List.map_map]
  apply List.map_congr_left
  intro a _
  by_cases hp : p a
  · simp [Function.comp, hp, h]
  · simp [Function.comp, hp]

theorem list_uniq_of_nodup_find? {α : Type} (key : α → String) (k : String)
    (l : List α) (hnd : (l.map key).Nodup) (t : α)
    (hf : l.find? (fun a => key a == k) = some t) :
    ∀ u ∈ l, key u = k → u = t := by
  induction l with
  | nil => simp at hf
  | cons a l ih =>
    rw [List.map_cons, List.nodup_cons] at hnd
    rw [List.find?_cons] at hf
    by_cases hp : (key a == k)
    · have ha : a = t := by simpa [hp] using hf
      subst ha
      intro u hu hk
      rcases List.mem_cons.mp hu with rfl | hu
      · rfl
      · exfalso
        apply hnd.1
        have hak : key a = k := by simpa using hp
        rw [hak, ← hk]
        exact List.mem_map_of_mem key hu
    · simp only [hp, cond_false] at hf
      intro u hu hk
      rcases List.mem_cons.mp hu with rfl | hu
      · exact absurd (by simp [hk]) hp
      · exact ih hnd.2 hf u hu hk

/-! ### Elementary facts about the embedded store operations -/

theorem applyStatus_transactionId (now : Nat) (s : NotificationStatus)
    (fr : Option String) (pr : Option ProviderResult) (t : Transaction) :
    (applyStatus now s fr pr t).transactionId = t.transactionId := by
  cases pr <;> cases s <;> simp [applyStatus]

theorem applyStatus_status (now : Nat) (s : NotificationStatus)
    (fr : Option String) (pr : Option ProviderResult) (t : Transaction) :
    (applyStatus now s fr pr t).status = s := by
  cases pr <;> cases s <;> simp [applyStatus]

theorem applyStatus_maxRetries (now : Nat) (s : NotificationStatus)
    (fr : Option String) (pr : Option ProviderResult) (t : Transaction) :
    (applyStatus now s fr pr t).maxRetries = t.maxRetries := by
  cases pr <;> cases s <;> simp [applyStatus]

theorem applyStatus_retryCount (now : Nat) (s : NotificationStatus)
    (fr : Option String) (pr : Option ProviderResult) (t : Transaction)
    (hs : s ≠ .RETRY) :
    (applyStatus now s fr pr t).retryCount = t.retryCount := by
  cases pr <;> cases s <;> simp [applyStatus] <;> exact absurd rfl hs

theorem applyStatus_retryCount_retry (now : Nat) (fr : Option String)
    (pr : Option ProviderResult) (t : Transaction) :
    (applyStatus now .RETRY fr pr t).retryCount = t.retryCount + 1 := by
  cases pr <;> simp [applyStatus]

theorem updateStatus_errorLogs (st : Store) (tid : String)
    (s : NotificationStatus) (fr : Option String)
    (pr : Option ProviderResult) (now : Nat) :
    (updateStatus st tid s fr pr now).errorLogs = st.errorLogs := rfl

theorem logError_transactions (st : Store) (tid : String) (e : ErrorRecord)
    (r : Bool) : (logError st tid e r).transactions = st.transactions := rfl

theorem getTransaction_updateStatus (st : Store) (tid : String)
    (s : NotificationStatus) (fr : Option String)
    (pr : Option ProviderResult) (now : Nat) :
    getTransaction (updateStatus st tid s fr pr now) tid =
      (getTransaction st tid).map (applyStatus now s fr pr) := by
  unfold getTransaction updateStatus
  exact list_find?_map_if _ _
    (fun t => by rw [applyStatus_transactionId]) st.transactions

theorem getTransaction_logError (st : Store) (tid tid' : String)
    (e : ErrorRecord) (r : Bool) :
    getTransaction (logError st tid e r) tid' = getTransaction st tid' := rfl

theorem updateStatus_keys (st : Store) (tid : String)
    (s : NotificationStatus) (fr : Option String)
    (pr : Option ProviderResult) (now : Nat) :
    (updateStatus st tid s fr pr now).transactions.map
        (fun t => t.transactionId) =
      st.transactions.map (fun t => t.transactionId) := by
  unfold updateStatus
  rw [List.map_map]
  apply List.map_congr_left
  intro t _
  by_cases h : (t.transactionId == tid)
  · simp [Function.comp, h, applyStatus_transactionId]
  · simp [Function.comp, h]

/-- The success branch of `process`, written out. -/
theorem process_ok_def (st : Store) (job : JobData) (r : ProviderResult)
    (now : Nat) :
    process st job (.ok r) now =
      updateStatus (updateStatus st job.transactionId .PROCESSING none none now)
        job.transactionId .SENT none (some r) now := rfl

/-- The failure branch of `process`, written out. -/
theorem process_error_def (st : Store) (job : JobData) (e : ErrorRecord)
    (now : Nat) :
    process st job (.error e) now =
      (match getTransaction
          (logError
            (updateStatus st job.transactionId .PROCESSING none none now)
            job.transactionId e (isRetryableError e)) job.transactionId with
       | some t =>
          if t.maxRetries ≤ t.retryCount then
            updateStatus
              (logError
                (updateStatus st job.transactionId .PROCESSING none none now)
                job.transactionId e (isRetryableError e))
              job.transactionId .DEAD_LETTER e.message none now
          else
            updateStatus
              (logError
                (updateStatus st job.transactionId .PROCESSING none none now)
                job.transactionId e (isRetryableError e))
              job.transactionId .RETRY e.message none now
       | none =>
          updateStatus
            (logError
              (updateStatus st job.transactionId .PROCESSING none none now)
              job.transactionId e (isRetryableError e))
            job.transactionId .RETRY e.message none now) := rfl

/-- The failure branch of `process`: the final status depends only on the
read-back `retryCount` / `maxRetries` comparison (never on retryability). -/
theorem process_error_status (st : Store) (job : JobData) (e : ErrorRecord)
    (now : Nat) (t : Transaction)
    (h : getTransaction st job.transactionId = some t) :
    (getTransaction (process st job (.error e) now)
          job.transactionId).map (fun u => u.status) =
      some (if t.maxRetries ≤ t.retryCount then
        NotificationStatus.DEAD_LETTER else NotificationStatus.RETRY) := by
  have h1 : getTransaction
      (logError (updateStatus st job.transactionId .PROCESSING none none now)
        job.transactionId e (isRetryableError e)) job.transactionId =
        some (applyStatus now .PROCESSING none none t) := by
    rw [getTransaction_logError, getTransaction_updateStatus, h]
    rfl
  rw [process_error_def, h1]
  simp only [applyStatus_maxRetries,
    applyStatus_retryCount now .PROCESSING none none t (by decide)]
  by_cases hc : t.maxRetries ≤ t.retryCount
  · rw [if_pos hc, if_pos hc, getTransaction_updateStatus, h1]
    simp [applyStatus_status]
  · rw [if_neg hc, if_neg hc, getTransaction_updateStatus, h1]
    simp [applyStatus_status]

/-- The failure branch of `process` appends exactly one `ErrorLog` row, the
one built by `logError` from the classifier verdict. -/
theorem process_error_errorLogs (st : Store) (job : JobData)
    (e : ErrorRecord) (now : Nat) :
    (process st job (.error e) now).errorLogs =
      st.errorLogs ++
        [mkErrorLog job.transactionId e (isRetryableError e)] := by
  rw [process_error_def]
  cases hf : getTransaction
      (logError (updateStatus st job.transactionId .PROCESSING none none now)
        job.transactionId e (isRetryableError e)) job.transactionId with
  | none => simp [updateStatus_errorLogs, logError, updateStatus]
  | some t =>
    by_cases hc : t.maxRetries ≤ t.retryCount <;>
      simp [hc, updateStatus_errorLogs, logError, updateStatus]

/-- The success branch of `process` leaves the `ErrorLog` table unchanged
and moves an existing row to `SENT`. -/
theorem process_ok_effects (st : Store) (job : JobData) (r : ProviderResult)
    (now : Nat) :
    (process st job (.ok r) now).errorLogs = st.errorLogs ∧
      (getTransaction (process st job (.ok r) now)
            job.transactionId).map (fun u => u.status) =
        (getTransaction st job.transactionId).map
          (fun _ => NotificationStatus.SENT) := by
  constructor
  · rw [process_ok_def, updateStatus_errorLogs, updateStatus_errorLogs]
  · rw [process_ok_def, getTransaction_updateStatus,
      getTransaction_updateStatus]
    cases getTransaction st job.transactionId with
    | none => rfl
    | some t => simp [applyStatus_status]

/-! ### Reachability and the retry-count invariant -/

theorem sendNotification_store_transactions (cfg now : Nat) (tid : String)
    (dto : CreateNotificationDto) (enqueueFails : Bool) (sys : SysState) :
    (sendNotification cfg now tid dto enqueueFails sys).2.store.transactions =
      sys.store.transactions ++ [createTransaction cfg now tid dto] := by
  cases enqueueFails <;> rfl

theorem sendNotification_store_errorLogs (cfg now : Nat) (tid : String)
    (dto : CreateNotificationDto) (enqueueFails : Bool) (sys : SysState) :
    (sendNotification cfg now tid dto enqueueFails sys).2.store.errorLogs =
      sys.store.errorLogs := by
  cases enqueueFails <;> rfl

/-- Every stored transaction respects its retry budget. -/
def RetryBounded (st : Store) : Prop :=
  ∀ t ∈ st.transactions, t.retryCount ≤ t.maxRetries

/-- The `transactionId` column is unique (it is the primary key). -/
def UniqueIds (st : Store) : Prop :=
  (st.transactions.map (fun t => t.transactionId)).Nodup

theorem opt_eq_none_or_some {α : Type} (o : Option α) :
    o = none ∨ ∃ a, o = some a := by
  cases o with
  | none => exact Or.inl rfl
  | some a => exact Or.inr ⟨a, rfl⟩

theorem process_keys (st : Store) (job : JobData)
    (outcome : Except ErrorRecord ProviderResult) (now : Nat) :
    (process st job outcome now).transactions.map (fun t => t.transactionId) =
      st.transactions.map (fun t => t.transactionId) := by
  cases outcome with
  | ok r => rw [process_ok_def, updateStatus_keys, updateStatus_keys]
  | error e =>
    rcases opt_eq_none_or_some (getTransaction
        (logError (updateStatus st job.transactionId .PROCESSING none none now)
          job.transactionId e (isRetryableError e)) job.transactionId) with
      hf | ⟨t, hf⟩
    · rw [process_error_def, hf, updateStatus_keys, logError_transactions,
        updateStatus_keys]
    · by_cases hc : t.maxRetries ≤ t.retryCount
      · rw [process_error_def, hf]
        simp only [hc, if_true]
        rw [updateStatus_keys, logError_transactions, updateStatus_keys]
      · rw [process_error_def, hf]
        simp only [hc, if_false]
        rw [updateStatus_keys, logError_transactions, updateStatus_keys]

theorem updateStatus_of_none (st : Store) (tid : String)
    (s : NotificationStatus) (fr : Option String)
    (pr : Option ProviderResult) (now : Nat)
    (h : getTransaction st tid = none) :
    updateStatus st tid s fr pr now = st := by
  unfold updateStatus
  rw [list_map_if_of_none _ _ _ h]

theorem updateStatus_retryBounded (st : Store) (tid : String)
    (s : NotificationStatus) (fr : Option String)
    (pr : Option ProviderResult) (now : Nat) (hs : s ≠ .RETRY)
    (hb : RetryBounded st) : RetryBounded (updateStatus st tid s fr pr now) := by
  intro u hu
  rcases List.mem_map.mp hu with ⟨a, ha, rfl⟩
  by_cases hp : (a.transactionId == tid)
  · rw [if_pos hp, applyStatus_retryCount _ _ _ _ _ hs, applyStatus_maxRetries]
    exact hb a ha
  · rw [if_neg hp]
    exact hb a ha

theorem logError_retryBounded (st : Store) (tid : String) (e : ErrorRecord)
    (r : Bool) (hb : RetryBounded st) : RetryBounded (logError st tid e r) :=
  hb

theorem process_retryBounded (st : Store) (job : JobData)
    (outcome : Except ErrorRecord ProviderResult) (now : Nat)
    (hu : UniqueIds st) (hb : RetryBounded st) :
    RetryBounded (process st job outcome now) := by
  cases outcome with
  | ok r =>
    rw [process_ok_def]
    exact updateStatus_retryBounded _ _ _ _ _ _ (by decide)
      (updateStatus_retryBounded _ _ _ _ _ _ (by decide) hb)
  | error e =>
    rw [process_error_def]
    have hb2 : RetryBounded
        (logError (updateStatus st job.transactionId .PROCESSING none none now)
          job.transactionId e (isRetryableError e)) :=
      logError_retryBounded _ _ _ _
        (updateStatus_retryBounded _ _ _ _ _ _ (by decide) hb)
    have hu2 : ((logError
          (updateStatus st job.transactionId .PROCESSING none none now)
          job.transactionId e (isRetryableError e)).transactions.map
        (fun t => t.transactionId)).Nodup := by
      rw [logError_transactions, updateStatus_keys]
      exact hu
    rcases opt_eq_none_or_some (getTransaction
        (logError (updateStatus st job.transactionId .PROCESSING none none now)
          job.transactionId e (isRetryableError e)) job.transactionId) with
      hf | ⟨t, hf⟩
    · rw [hf]
      show RetryBounded (updateStatus
        (logError (updateStatus st job.transactionId .PROCESSING none none now)
          job.transactionId e (isRetryableError e))
        job.transactionId .RETRY e.message none now)
      rw [updateStatus_of_none _ _ _ _ _ _ hf]
      exact hb2
    · by_cases hc : t.maxRetries ≤ t.retryCount
      · rw [hf]
        simp only [hc, if_true]
        exact updateStatus_retryBounded _ _ _ _ _ _ (by decide) hb2
      · rw [hf]
        simp only [hc, if_false]
        intro u hu'
        rcases List.mem_map.mp hu' with ⟨a, ha, rfl⟩
        by_cases hp : (a.transactionId == job.transactionId)
        · have hf' : (logError
              (updateStatus st job.transactionId .PROCESSING none none now)
              job.transactionId e (isRetryableError e)).transactions.find?
                (fun a => a.transactionId == job.transactionId) = some t := hf
          have hat : a = t :=
            list_uniq_of_nodup_find? (fun u => u.transactionId)
              job.transactionId _ hu2 t hf' a ha (by simpa using hp)
          subst hat
          rw [if_pos hp, applyStatus_retryCount_retry, applyStatus_maxRetries]
          omega
        · rw [if_neg hp]
          exact hb2 a ha

/-- One interaction with the system: a dispatcher submission (with a fresh
`transactionId`, as `uuidv4` guarantees) or the worker processing one
delivered job with some provider outcome. -/
inductive Step : SysState → SysState → Prop where
  | submit (cfg now : Nat) (tid : String) (dto : CreateNotificationDto)
      (enqueueFails : Bool) (sys : SysState)
      (hfresh : getTransaction sys.store tid = none) :
      Step sys (sendNotification cfg now tid dto enqueueFails sys).2
  | work (job : JobData) (outcome : Except ErrorRecord ProviderResult)
      (now : Nat) (sys : SysState) :
      Step sys { sys with store := process sys.store job outcome now }

/-- System states reachable from the empty system by dispatcher and worker
operations. -/
inductive Reachable : SysState → Prop where
  | init : Reachable initialState
  | step {s s' : SysState} : Reachable s → Step s s' → Reachable s'

theorem step_preserves {s s' : SysState} (h : Step s s')
    (hinv : UniqueIds s.store ∧ RetryBounded s.store) :
    UniqueIds s'.store ∧ RetryBounded s'.store := by
  cases h with
  | submit cfg now tid dto enqueueFails sys hfresh =>
    have hnotin : tid ∉ s.store.transactions.map (fun t => t.transactionId) := by
      intro hmem
      rcases List.mem_map.mp hmem with ⟨a, ha, hak⟩
      have := List.find?_eq_none.mp hfresh a ha
      simp [hak] at this
    constructor
    · unfold UniqueIds
      rw [sendNotification_store_transactions, List.map_append]
      simp only [List.map_cons, List.map_nil]
      rw [List.nodup_append]
      refine ⟨hinv.1, List.nodup_singleton _, ?_⟩
      intro x hx hx'
      simp only [List.mem_singleton] at hx'
      subst hx'
      exact hnotin hx
    · intro u hu
      rw [sendNotification_store_transactions] at hu
      rcases List.mem_append.mp hu with hu | hu
      · exact hinv.2 u hu
      · simp only [List.mem_singleton] at hu
        subst hu
        exact Nat.zero_le _
  | work job outcome now sys =>
    refine ⟨?_, process_retryBounded _ _ _ _ hinv.1 hinv.2⟩
    unfold UniqueIds
    rw [process_keys]
    exact hinv.1

theorem reachable_invariant {s : SysState} (h : Reachable s) :
    UniqueIds s.store ∧ RetryBounded s.store := by
  induction h with
  | init =>
    constructor
    · exact List.nodup_nil
    · intro u hu
      simp [initialState] at hu
  | step _ hstep ih => exact step_preserves hstep ih

/-! ### The preference-update merge law -/

theorem applyDto_userId (p : Preferences) (dto : UpdatePreferencesDto) :
    (applyDto p dto).userId = p.userId := rfl

theorem getD_orElse {α : Type} (o1 o2 : Option α) (d : α) :
    (o2.orElse (fun _ => o1)).getD d = o2.getD (o1.getD d) := by
  cases o2 <;> rfl

theorem applyDto_assoc (r : Preferences) (p1 p2 : UpdatePreferencesDto) :
    applyDto (applyDto r p1) p2 = applyDto r (mergeDto p1 p2) := by
  simp [applyDto, mergeDto, getD_orElse]

theorem updatePreferences_merge (ps : List Preferences) (u : String)
    (p1 p2 : UpdatePreferencesDto) :
    updatePreferences (updatePreferences ps u p1).2 u p2 =
      updatePreferences ps u (mergeDto p1 p2) := by
  rcases opt_eq_none_or_some (findPreferences ps u) with h | ⟨ex, h⟩
  · have h' : ps.find? (fun p => p.userId == u) = none := h
    have hr1u : ((applyDto (schemaDefaultPreferences u) p1).userId == u) =
        true := by
      rw [applyDto_userId]
      simp [schemaDefaultPreferences, createDefaultPreferences]
    have hr1eq : (applyDto (schemaDefaultPreferences u) p1).userId = u := by
      simpa using hr1u
    have hsnd : (updatePreferences ps u p1).2 =
        ps ++ [applyDto (schemaDefaultPreferences u) p1] := by
      unfold updatePreferences
      rw [h]
    have h2 : findPreferences
        (ps ++ [applyDto (schemaDefaultPreferences u) p1]) u =
        some (applyDto (schemaDefaultPreferences u) p1) := by
      unfold findPreferences
      rw [list_find?_append_none _ _ _ h', List.find?_cons]
      simp [hr1u]
    rw [hsnd]
    unfold updatePreferences
    rw [h2, h]
    simp only [Prod.mk.injEq]
    constructor
    · exact applyDto_assoc _ p1 p2
    · rw [List.map_append, list_map_if_of_none _ _ _ h']
      simp [hr1eq, applyDto_assoc]
  · have hfind : ps.find? (fun p => p.userId == u) = some ex := h
    have hexu := List.find?_some hfind
    have hr1u : ((applyDto ex p1).userId == u) = true := by
      rw [applyDto_userId]
      exact hexu
    have hsnd : (updatePreferences ps u p1).2 =
        ps.map (fun p => if p.userId == u then applyDto ex p1 else p) := by
      unfold updatePreferences
      rw [h]
    have h2 : findPreferences
        (ps.map (fun p => if p.userId == u then applyDto ex p1 else p)) u =
        some (applyDto ex p1) := by
      unfold findPreferences
      rw [list_find?_map_const (fun p => p.userId == u) (applyDto ex p1)
        hr1u, hfind]
      rfl
    rw [hsnd]
    unfold updatePreferences
    rw [h2, h]
    simp only [Prod.mk.injEq]
    constructor
    · exact applyDto_assoc ex p1 p2
    · rw [list_map_if_map_if (fun p => p.userId == u) (applyDto ex p1)
        (applyDto (applyDto ex p1) p2) hr1u]
      simp only [applyDto_assoc]

/-! ### Dispatcher-level helper lemmas -/

/-- The channel the dispatcher resolves for a request. -/
def effChannel (sys : SysState) (dto : CreateNotificationDto) :
    NotificationChannel :=
  (resolveChannel sys.prefs dto).1

/-- The priority the dispatcher resolves for a request. -/
def effPriority (sys : SysState) (dto : CreateNotificationDto) : Nat :=
  (resolvePriority (resolveChannel sys.prefs dto).2 dto
    (resolveChannel sys.prefs dto).1).1

theorem resolvePriority_fst (prefs : List Preferences)
    (dto : CreateNotificationDto) (channel : NotificationChannel) :
    (resolvePriority prefs dto channel).1 =
      jsOrNat dto.priority
        (jsOr (getChannelPriority prefs dto.userId channel).1 MEDIUM) := rfl

theorem jsOrNat_some (n d : Nat) :
    jsOrNat (some n) d = if n = 0 then d else n := rfl

theorem jsOr_pos (n d : Nat) (hd : 0 < d) : 0 < jsOr n d := by
  unfold jsOr
  split
  · exact hd
  · omega

theorem jsOrNat_pos (o : Option Nat) (d : Nat) (hd : 0 < d) :
    0 < jsOrNat o d := by
  cases o with
  | none => exact hd
  | some n =>
    rw [jsOrNat_some]
    split
    · exact hd
    · omega

theorem effPriority_pos (sys : SysState) (dto : CreateNotificationDto) :
    0 < effPriority sys dto := by
  unfold effPriority
  rw [resolvePriority_fst]
  exact jsOrNat_pos _ _ (jsOr_pos _ _ (by decide))

theorem sendNotification_queues (cfg now : Nat) (tid : String)
    (dto : CreateNotificationDto) (sys : SysState) :
    (sendNotification cfg now tid dto false sys).2.queues =
      addNotificationToQueue sys.queues
        { dto with
            channel := some (effChannel sys dto)
            priority := some (effPriority sys dto) } tid := rfl

theorem sendNotification_response (cfg now : Nat) (tid : String)
    (dto : CreateNotificationDto) (sys : SysState) :
    (sendNotification cfg now tid dto false sys).1 =
      .ok { success := true
            transactionId := tid
            channel := effChannel sys dto
            priority := effPriority sys dto } := rfl

theorem sendNotification_failure_response (cfg now : Nat) (tid : String)
    (dto : CreateNotificationDto) (sys : SysState) :
    (sendNotification cfg now tid dto true sys).1 =
      .error "enqueue failed" := rfl

theorem getTransaction_sendNotification (cfg now : Nat) (tid : String)
    (dto : CreateNotificationDto) (enqueueFails : Bool) (sys : SysState)
    (hfresh : getTransaction sys.store tid = none) :
    getTransaction (sendNotification cfg now tid dto enqueueFails sys).2.store
        tid = some (createTransaction cfg now tid dto) := by
  have h' : sys.store.transactions.find?
      (fun t => t.transactionId == tid) = none := hfresh
  unfold getTransaction
  rw [sendNotification_store_transactions, list_find?_append_none _ _ _ h',
    List.find?_cons]
  simp [createTransaction]


/-! ### Concrete fixtures used by counterexamples and witnesses -/

/-- A sample request carrying an explicit channel and priority. -/
def dtoEmail2 : CreateNotificationDto :=
  { userId := "u1", notificationType := "TRANSACTIONAL",
    channel := some .EMAIL, content := "hi", subject := none,
    recipient := "a@b.c", priority := some 2 }

/-- The job the broker would deliver for `dtoEmail2`. -/
def jobT1 : JobData :=
  { transactionId := "t1", userId := "u1",
    notificationType := "TRANSACTIONAL", channel := .EMAIL,
    content := "hi", subject := none, recipient := "a@b.c",
    priority := some 2 }

/-- A 401 provider error (non-retryable under the classifier). -/
def err401 : ErrorRecord :=
  ⟨none, some 401, some "unauthorized", none, none⟩

/-- A store holding the freshly-created transaction for `dtoEmail2`. -/
def storePending : Store :=
  { transactions := [createTransaction 3 0 "t1" dtoEmail2],
    errorLogs := [] }

/-- A transaction row that is already SENT. -/
def sentRow : Transaction :=
  { transactionId := "t1", userId := "u1",
    notificationType := "TRANSACTIONAL", channel := some .EMAIL,
    status := .SENT, content := "hi", subject := none,
    recipient := "a@b.c", priority := 2, retryCount := 0, maxRetries := 3,
    failureReason := none, providerResponse := none, createdAt := 0,
    updatedAt := 0, sentAt := some 0, failedAt := none }

/-- A store holding only `sentRow`. -/
def storeSent : Store :=
  { transactions := [sentRow], errorLogs := [] }

/-- A transaction row whose retry budget is exhausted. -/
def exhaustedRow : Transaction :=
  { sentRow with status := .RETRY, retryCount := 3, sentAt := none }

/-- A store holding only `exhaustedRow`. -/
def storeExhausted : Store :=
  { transactions := [exhaustedRow], errorLogs := [] }

/-! ### Claims -/

/-- C1 (counterexample): the claim "a non-retryable provider failure is
always moved to DEAD_LETTER and never to RETRY" is false on the code.  A 401
error is classified non-retryable and the transaction has retryCount 0 <
maxRetries 3, yet `process` transitions it to RETRY, not DEAD_LETTER. -/
theorem C1_counterexample :
    isRetryableError err401 = false ∧
    (createTransaction 3 0 "t1" dtoEmail2).retryCount <
      (createTransaction 3 0 "t1" dtoEmail2).maxRetries ∧
    (getTransaction (process storePending jobT1 (.error err401) 1)
        "t1").map (fun t => t.status) = some .RETRY ∧
    (getTransaction (process storePending jobT1 (.error err401) 1)
        "t1").map (fun t => t.status) ≠ some .DEAD_LETTER := by
  decide

/-- C1 (amended): on a provider failure the worker transitions the
transaction to DEAD_LETTER exactly when the read-back retryCount has reached
maxRetries and to RETRY otherwise, irrespective of whether the error is
retryable; the classifier verdict only reaches the appended ErrorLog row. -/
theorem C1_amended (st : Store) (job : JobData) (e : ErrorRecord) (now : Nat)
    (t : Transaction) (h : getTransaction st job.transactionId = some t) :
    (getTransaction (process st job (.error e) now) job.transactionId).map
        (fun u => u.status) =
      some (if t.maxRetries ≤ t.retryCount then NotificationStatus.DEAD_LETTER
        else NotificationStatus.RETRY) ∧
    (process st job (.error e) now).errorLogs =
      st.errorLogs ++ [mkErrorLog job.transactionId e (isRetryableError e)] :=
  ⟨process_error_status st job e now t h, process_error_errorLogs st job e now⟩

/-- C1 (witness): the amended theorem applied to a concrete non-retryable
failure with retries remaining. -/
theorem C1_witness :
    (getTransaction (process storePending jobT1 (.error err401) 1)
        "t1").map (fun t => t.status) = some .RETRY :=
  (C1_amended storePending jobT1 err401 1
    (createTransaction 3 0 "t1" dtoEmail2) (by decide)).1.trans (by decide)

/-- C2 (counterexample): the claim "processing a job whose transaction is
already terminal is a no-op" is false on the code.  With a transaction
already SENT, a delivered job with a failing provider call still appends an
ErrorLog row and rewrites the status to RETRY. -/
theorem C2_counterexample :
    (getTransaction storeSent "t1").map (fun t => t.status) = some .SENT ∧
    storeSent.errorLogs.length = 0 ∧
    (process storeSent jobT1 (.error err401) 1).errorLogs.length = 1 ∧
    (getTransaction (process storeSent jobT1 (.error err401) 1)
        "t1").map (fun t => t.status) = some .RETRY := by
  decide

/-- C2 (amended): the worker performs no terminal-state check.  Processing a
delivered job whose transaction is already SENT or DEAD_LETTER is not a
no-op: on a provider failure it still appends an ErrorLog row and rewrites
the status to RETRY or DEAD_LETTER. -/
theorem C2_amended (st : Store) (job : JobData) (e : ErrorRecord) (now : Nat)
    (t : Transaction) (h : getTransaction st job.transactionId = some t)
    (_hterm : t.status = NotificationStatus.SENT ∨
      t.status = NotificationStatus.DEAD_LETTER) :
    (process st job (.error e) now).errorLogs =
      st.errorLogs ++ [mkErrorLog job.transactionId e (isRetryableError e)] ∧
    ((getTransaction (process st job (.error e) now) job.transactionId).map
        (fun u => u.status) = some NotificationStatus.RETRY ∨
     (getTransaction (process st job (.error e) now) job.transactionId).map
        (fun u => u.status) = some NotificationStatus.DEAD_LETTER) := by
  refine ⟨process_error_errorLogs st job e now, ?_⟩
  have hst := process_error_status st job e now t h
  by_cases hc : t.maxRetries ≤ t.retryCount
  · right
    rw [hst, if_pos hc]
  · left
    rw [hst, if_neg hc]

/-- C2 (witness): the amended theorem applied to a concrete SENT
transaction. -/
theorem C2_witness :
    (process storeSent jobT1 (.error err401) 1).errorLogs =
      [] ++ [mkErrorLog "t1" err401 (isRetryableError err401)] :=
  (C2_amended storeSent jobT1 err401 1 sentRow (by decide)
    (Or.inl rfl)).1

/-- C4 (counterexample): the claim "statusCode 502/503 or a message
containing service unavailable yields ErrorKind NETWORK_ERROR" is false on
the code: a bare 503 error is classified retryable but its errorType is
RETRYABLE, not NETWORK_ERROR. -/
theorem C4_counterexample :
    isRetryableError ⟨none, some 503, none, none, none⟩ = true ∧
    determineErrorType ⟨none, some 503, none, none, none⟩
        (isRetryableError ⟨none, some 503, none, none, none⟩) =
      ErrorType.RETRYABLE ∧
    ErrorType.RETRYABLE ≠ ErrorType.NETWORK_ERROR := by
  decide

/-- C4 (amended): a 503 error is always classified retryable, and bare
502/503/"service unavailable" errors classify as retryable = true with
errorType RETRYABLE; `determineErrorType` only ever yields NETWORK_ERROR for
errorCode ETIMEDOUT or ECONNREFUSED — there is no 502/503/"service
unavailable" rule. -/
theorem C4_amended :
    (∀ e : ErrorRecord, e.statusCode = some 503 →
      isRetryableError e = true) ∧
    (∀ (e : ErrorRecord) (r : Bool),
      determineErrorType e r = ErrorType.NETWORK_ERROR →
      e.code = some "ETIMEDOUT" ∨ e.code = some "ECONNREFUSED") ∧
    (∀ (sc : Option Nat) (m stk : Option String),
      (sc = none ∨ sc = some 502 ∨ sc = some 503) →
      (m = none ∨ m = some "service unavailable") →
      isRetryableError ⟨none, sc, m, stk, none⟩ = true ∧
        determineErrorType ⟨none, sc, m, stk, none⟩
          (isRetryableError ⟨none, sc, m, stk, none⟩) =
          ErrorType.RETRYABLE) := by
  refine ⟨?_, ?_, ?_⟩
  · intro e h
    simp [isRetryableError, h]
  · intro e r h
    cases hcond : (e.code == some "ETIMEDOUT" ||
        e.code == some "ECONNREFUSED") with
    | true => simpa using hcond
    | false =>
      exfalso
      unfold determineErrorType at h
      rw [hcond] at h
      simp only [Bool.false_eq_true, if_false] at h
      split at h
      · exact absurd h (by decide)
      split at h
      · exact absurd h (by decide)
      split at h
      · exact absurd h (by decide)
      split at h
      · exact absurd h (by decide)
      split at h
      · exact absurd h (by decide)
      · exact absurd h (by decide)
  · intro sc m stk h1 h2
    rcases h1 with rfl | rfl | rfl <;> rcases h2 with rfl | rfl <;>
      exact ⟨rfl, rfl⟩

/-- C4 (witness): the amended theorem applied to a bare 503 error. -/
theorem C4_witness :
    isRetryableError ⟨none, some 503, none, none, none⟩ = true ∧
      determineErrorType ⟨none, some 503, none, none, none⟩
        (isRetryableError ⟨none, some 503, none, none, none⟩) =
        ErrorType.RETRYABLE :=
  C4_amended.2.2 (some 503) none none (Or.inr (Or.inr rfl)) (Or.inl rfl)


/-- A request with an explicit SMS channel and no priority. -/
def dtoSmsNoPri : CreateNotificationDto :=
  { userId := "u1", notificationType := "TRANSACTIONAL",
    channel := some .SMS, content := "hi", subject := none,
    recipient := "+15550001111", priority := none }

/-- C3 (counterexample): the claim "the created Transaction row carries the
resolved channel and priority (priority defaulting to the channel preference,
else MEDIUM)" is false on the code.  For a request with channel SMS and no
priority, the resolved priority is the default SMS channel priority 2, and
the response echoes 2, but the stored row has priority 1 (the raw
`dto.priority || 1` of `createTransaction`). -/
theorem C3_counterexample :
    (sendNotification 3 0 "t1" dtoSmsNoPri false initialState).1.toOption =
      some { success := true, transactionId := "t1",
             channel := .SMS, priority := 2 } ∧
    (getTransaction
        (sendNotification 3 0 "t1" dtoSmsNoPri false
          initialState).2.store "t1").map (fun t => t.priority) = some 1 ∧
    (getTransaction
        (sendNotification 3 0 "t1" dtoSmsNoPri false
          initialState).2.store "t1").map (fun t => t.priority) ≠ some 2 := by
  decide

/-- C3 (amended): the Transaction row the dispatcher creates has
status PENDING, retryCount 0 and maxRetries equal to the configured default,
but it stores the request's raw channel (absent if the request gave none)
and priority `req.priority || LOW (1)`; the resolved channel and priority
are used only for queue routing and the HTTP response. -/
theorem C3_amended (cfg now : Nat) (tid : String)
    (dto : CreateNotificationDto) (enqueueFails : Bool) (sys : SysState)
    (hfresh : getTransaction sys.store tid = none) :
    ∃ row : Transaction,
      getTransaction
          (sendNotification cfg now tid dto enqueueFails sys).2.store tid =
        some row ∧
      row.status = NotificationStatus.PENDING ∧
      row.retryCount = 0 ∧
      row.maxRetries = cfg ∧
      row.channel = dto.channel ∧
      row.priority = jsOrNat dto.priority LOW ∧
      row.userId = dto.userId :=
  ⟨createTransaction cfg now tid dto,
    getTransaction_sendNotification cfg now tid dto enqueueFails sys hfresh,
    rfl, rfl, rfl, rfl, rfl, rfl⟩

/-- C3 (witness): the amended theorem applied to a concrete submission. -/
theorem C3_witness :
    ∃ row : Transaction,
      getTransaction
          (sendNotification 3 0 "t1" dtoSmsNoPri false
            initialState).2.store "t1" = some row ∧
      row.status = NotificationStatus.PENDING ∧
      row.retryCount = 0 ∧
      row.maxRetries = 3 ∧
      row.channel = dtoSmsNoPri.channel ∧
      row.priority = jsOrNat dtoSmsNoPri.priority LOW ∧
      row.userId = dtoSmsNoPri.userId :=
  C3_amended 3 0 "t1" dtoSmsNoPri false initialState (by decide)

/-- C5 (counterexample): the claim "when the Store write succeeds but the
enqueue fails, the dispatcher rolls the row forward to FAILED and appends a
synthetic ErrorLog row" is false on the code: the row stays PENDING and the
ErrorLog table stays empty, while the broker error propagates. -/
theorem C5_counterexample :
    (sendNotification 3 0 "t1" dtoEmail2 true initialState).1.toOption =
      none ∧
    (getTransaction
        (sendNotification 3 0 "t1" dtoEmail2 true
          initialState).2.store "t1").map (fun t => t.status) =
      some .PENDING ∧
    (getTransaction
        (sendNotification 3 0 "t1" dtoEmail2 true
          initialState).2.store "t1").map (fun t => t.status) ≠
      some .FAILED ∧
    (sendNotification 3 0 "t1" dtoEmail2 true
        initialState).2.store.errorLogs = [] := by
  decide

/-- C5 (amended): when the enqueue fails after the Store write, the
exception propagates to the caller, the transaction row remains PENDING, and
no ErrorLog row is appended. -/
theorem C5_amended (cfg now : Nat) (tid : String)
    (dto : CreateNotificationDto) (sys : SysState)
    (hfresh : getTransaction sys.store tid = none) :
    (sendNotification cfg now tid dto true sys).1 =
      .error "enqueue failed" ∧
    (sendNotification cfg now tid dto true sys).2.store.errorLogs =
      sys.store.errorLogs ∧
    (getTransaction (sendNotification cfg now tid dto true sys).2.store
        tid).map (fun t => t.status) = some NotificationStatus.PENDING := by
  refine ⟨sendNotification_failure_response cfg now tid dto sys,
    sendNotification_store_errorLogs cfg now tid dto true sys, ?_⟩
  rw [getTransaction_sendNotification cfg now tid dto true sys hfresh]
  rfl

/-- C5 (witness): the amended theorem applied to a concrete failing
enqueue. -/
theorem C5_witness :
    (sendNotification 3 0 "t1" dtoEmail2 true initialState).1 =
      .error "enqueue failed" ∧
    (sendNotification 3 0 "t1" dtoEmail2 true
        initialState).2.store.errorLogs = initialState.store.errorLogs ∧
    (getTransaction
        (sendNotification 3 0 "t1" dtoEmail2 true initialState).2.store
        "t1").map (fun t => t.status) = some NotificationStatus.PENDING :=
  C5_amended 3 0 "t1" dtoEmail2 initialState (by decide)

/-- C6: a submission enqueues one Send job, on the priority queue precisely
when the resolved priority is at least HIGH (3) and on the regular queue
otherwise (the resolved priority is always at least 1, so "otherwise" means
1 or 2 for in-range priorities), in both cases with the transactionId as the
broker jobId and the other queue left unchanged. -/
theorem C6_theorem (cfg now : Nat) (tid : String)
    (dto : CreateNotificationDto) (sys : SysState) :
    1 ≤ effPriority sys dto ∧
    ∃ j : EnqueuedJob, j.jobId = tid ∧ j.jobPriority = effPriority sys dto ∧
      ((HIGH ≤ effPriority sys dto ∧
        (sendNotification cfg now tid dto false sys).2.queues.priorityQueue =
          sys.queues.priorityQueue ++ [j] ∧
        (sendNotification cfg now tid dto false sys).2.queues.regular =
          sys.queues.regular) ∨
       (effPriority sys dto < HIGH ∧
        (sendNotification cfg now tid dto false sys).2.queues.regular =
          sys.queues.regular ++ [j] ∧
        (sendNotification cfg now tid dto false sys).2.queues.priorityQueue =
          sys.queues.priorityQueue)) := by
  have hpos := effPriority_pos sys dto
  have hne : ¬ (effPriority sys dto = 0) := Nat.pos_iff_ne_zero.mp hpos
  refine ⟨hpos,
    ⟨{ jobName := "send-notification",
       data := { dto with
                  channel := some (effChannel sys dto),
                  priority := some (effPriority sys dto) },
       transactionId := tid,
       jobPriority := effPriority sys dto,
       jobId := tid }, rfl, rfl, ?_⟩⟩
  rw [sendNotification_queues]
  unfold addNotificationToQueue
  rw [show ({ dto with
      channel := some (effChannel sys dto),
      priority := some (effPriority sys dto) } :
        CreateNotificationDto).priority = some (effPriority sys dto)
    from rfl]
  rw [jsOrNat_some, if_neg hne]
  by_cases hH : HIGH ≤ effPriority sys dto
  · rw [if_pos hH]
    exact Or.inl ⟨hH, rfl, rfl⟩
  · rw [if_neg hH]
    exact Or.inr ⟨Nat.lt_of_not_le hH, rfl, rfl⟩


/-- C7: in every reachable system state, every stored transaction satisfies
retryCount ≤ maxRetries (retryCount is a Nat, so 0 ≤ retryCount is
intrinsic); moreover the worker never performs a RETRY transition on a
provider failure once the read-back retryCount has reached maxRetries. -/
theorem C7_theorem :
    (∀ s : SysState, Reachable s →
      ∀ t ∈ s.store.transactions, t.retryCount ≤ t.maxRetries) ∧
    (∀ (st : Store) (job : JobData) (e : ErrorRecord) (now : Nat)
        (t : Transaction),
      getTransaction st job.transactionId = some t →
      t.maxRetries ≤ t.retryCount →
      (getTransaction (process st job (.error e) now)
          job.transactionId).map (fun u => u.status) ≠
        some NotificationStatus.RETRY) := by
  constructor
  · intro s hs t ht
    exact (reachable_invariant hs).2 t ht
  · intro st job e now t h hc hbad
    have hst := process_error_status st job e now t h
    rw [if_pos hc] at hst
    rw [hst] at hbad
    exact absurd hbad (by decide)

/-- C7 (witness): the invariant read off a concrete reachable state (one
submission from the empty system), and the no-RETRY-at-the-cap fact on a
concrete exhausted transaction. -/
theorem C7_witness :
    ((createTransaction 3 0 "t1" dtoEmail2).retryCount ≤
      (createTransaction 3 0 "t1" dtoEmail2).maxRetries) ∧
    (getTransaction (process storeExhausted jobT1 (.error err401) 1)
        "t1").map (fun u => u.status) ≠ some NotificationStatus.RETRY :=
  ⟨C7_theorem.1 (sendNotification 3 0 "t1" dtoEmail2 false initialState).2
      (Reachable.step Reachable.init
        (Step.submit 3 0 "t1" dtoEmail2 false initialState (by decide)))
      (createTransaction 3 0 "t1" dtoEmail2) (by decide),
   C7_theorem.2 storeExhausted jobT1 err401 1 exhaustedRow (by decide)
      (by decide)⟩

/-- C8: preference update is a right-biased partial merge: updating with p1
and then p2 produces the same returned row and the same stored table as one
update with p1 ⊕ p2, where ⊕ overwrites exactly the keys defined in p2. -/
theorem C8_theorem (ps : List Preferences) (u : String)
    (p1 p2 : UpdatePreferencesDto) :
    updatePreferences (updatePreferences ps u p1).2 u p2 =
      updatePreferences ps u (mergeDto p1 p2) :=
  updatePreferences_merge ps u p1 p2

/-- C9: for a user with no stored Preferences row, `getPreferences` creates
and returns the default row (email enabled, the other channels disabled,
priorities EMAIL=1, SMS=2, WHATSAPP=3, PUSH=4), the preferred channels are
exactly [EMAIL], and a channel-less submission for such an unknown user
succeeds with resolved channel EMAIL. -/
theorem C9_theorem (cfg now : Nat) (tid : String)
    (dto : CreateNotificationDto) (sys : SysState)
    (hnone : findPreferences sys.prefs dto.userId = none)
    (hchan : dto.channel = none) :
    getPreferences sys.prefs dto.userId =
      (createDefaultPreferences dto.userId,
       sys.prefs ++ [createDefaultPreferences dto.userId]) ∧
    ((createDefaultPreferences dto.userId).emailEnabled = true ∧
     (createDefaultPreferences dto.userId).smsEnabled = false ∧
     (createDefaultPreferences dto.userId).whatsappEnabled = false ∧
     (createDefaultPreferences dto.userId).pushEnabled = false ∧
     (createDefaultPreferences dto.userId).emailPriority = 1 ∧
     (createDefaultPreferences dto.userId).smsPriority = 2 ∧
     (createDefaultPreferences dto.userId).whatsappPriority = 3 ∧
     (createDefaultPreferences dto.userId).pushPriority = 4) ∧
    (getPreferredChannels sys.prefs dto.userId).1 =
      [NotificationChannel.EMAIL] ∧
    (sendNotification cfg now tid dto false sys).1 =
      .ok { success := true, transactionId := tid,
            channel := NotificationChannel.EMAIL,
            priority := effPriority sys dto } := by
  have hchans : (getPreferredChannels sys.prefs dto.userId).1 =
      [NotificationChannel.EMAIL] := by
    unfold getPreferredChannels getPreferences
    rw [hnone]
    rfl
  have hch : effChannel sys dto = NotificationChannel.EMAIL := by
    unfold effChannel resolveChannel
    rw [hchan, hchans]
    rfl
  refine ⟨?_, ⟨rfl, rfl, rfl, rfl, rfl, rfl, rfl, rfl⟩, hchans, ?_⟩
  · unfold getPreferences
    rw [hnone]
  · rw [sendNotification_response, hch]

/-- C9 (witness): the theorem applied to an unknown user over the empty
system. -/
theorem C9_witness :
    (getPreferredChannels ([] : List Preferences) "u9").1 =
      [NotificationChannel.EMAIL] :=
  (C9_theorem 3 0 "t9"
    { userId := "u9", notificationType := "TRANSACTIONAL", channel := none,
      content := "hi", subject := none, recipient := "a@b.c",
      priority := none }
    initialState (by decide) (by decide)).2.2.1

/-- C10: the PUSH provider's send is total and always reports success, so
processing any delivered job with the push provider's result appends no
ErrorLog row and moves the (existing) transaction to SENT — a PUSH delivery
attempt can never drive a transaction to RETRY or DEAD_LETTER through a
provider failure. -/
theorem C10_theorem (recipient content : String) (title : Option String)
    (now : Nat) (st : Store) (job : JobData) (andThen : Nat) :
    (pushProviderSend recipient content title now).success = true ∧
    (process st job (.ok (pushProviderSend recipient content title now))
        andThen).errorLogs = st.errorLogs ∧
    (getTransaction (process st job
        (.ok (pushProviderSend recipient content title now)) andThen)
        job.transactionId).map (fun u => u.status) =
      (getTransaction st job.transactionId).map
        (fun _ => NotificationStatus.SENT) :=
  ⟨rfl, (process_ok_effects st job _ andThen).1,
    (process_ok_effects st job _ andThen).2⟩

end NotificationService
